import Mathlib

/-!
Shallow embedding of the train stopping simulator (`src/tasc/server.py`)
and proofs about the claims of its specification.

Modelling conventions:
* Python floats are modelled as exact rationals (`ℚ`); every numeric literal
  in the source is an exact decimal, so the embedding is faithful except for
  floating-point rounding, on which no claim here depends.
* Python `int` values (notches, counters) are `ℤ`.
* `float("inf")` (used only for stopping-distance predictions) is modelled by
  `Option ℚ` with `none` standing for infinity; the comparison helpers below
  reproduce the IEEE comparisons the source performs against it.
* The transcendental float operations (`** 0.5`, `** idw_power`,
  `2.71828 ** x`) are modelled by fixed computable rational approximations
  (`ratSqrtApprox`, `fpowQ`, `exp271828`).  Every theorem below is
  independent of the values these functions return; they exist only so that
  the corresponding code paths are total, deterministic functions.
* The `issues` dictionary (UI reporting strings) and the wall-clock driver
  loop are not modelled; no claim concerns them.
-/

namespace TascSim

/-- Python `int(x)` on a float: truncation toward zero. -/
def pytrunc (q : ℚ) : ℤ :=
  if 0 ≤ q then ⌊q⌋ else -⌊-q⌋

/-- Python `round(x)` / `round(x, 0)`: round half to even (banker's rounding). -/
def pyround (q : ℚ) : ℤ :=
  let f := ⌊q⌋
  let r := q - (f : ℚ)
  if r < 1/2 then f
  else if 1/2 < r then f + 1
  else if f % 2 = 0 then f else f + 1

/-- Truncated Taylor series for the exponential, used only to give the float
power operators a deterministic rational model. -/
def expTaylor (x : ℚ) : ℚ :=
  (List.range 16).foldl (fun (acc : ℚ) (k : ℕ) => acc + x ^ k / (Nat.factorial k : ℚ)) 0

/-- Deterministic rational model of `math.exp`. -/
def expQ (x : ℚ) : ℚ :=
  if 0 ≤ x then expTaylor x else 1 / expTaylor (-x)

/-- Deterministic rational model of the natural logarithm (artanh series). -/
def lnQ (x : ℚ) : ℚ :=
  if x ≤ 0 then 0
  else
    let y := (x - 1) / (x + 1)
    2 * (List.range 8).foldl (fun (acc : ℚ) (k : ℕ) => acc + y ^ (2 * k + 1) / (2 * k + 1 : ℚ)) 0

/-- Deterministic rational model of Python float `b ** e`; exact for integer
exponents, an approximation otherwise.  No claim depends on its values. -/
def fpowQ (b e : ℚ) : ℚ :=
  if e.den = 1 then b ^ e.num else expQ (e * lnQ b)

/-- Deterministic rational model of Python `2.71828 ** x` (legacy traction
curve tail).  No claim depends on its values. -/
def exp271828 (x : ℚ) : ℚ :=
  fpowQ (2.71828 : ℚ) x

/-- Predicted stopping distances: `none` models `float("inf")`. -/
abbrev PDist := Option ℚ

/-- Comparison `d > r` where `d` may be `inf` (IEEE: `inf > r` is true). -/
def PDist.gtQ : PDist → ℚ → Bool
  | none, _ => true
  | some q, r => decide (r < q)

/-- Comparison `d <= r` where `d` may be `inf` (IEEE: `inf <= r` is false). -/
def PDist.leQ : PDist → ℚ → Bool
  | none, _ => false
  | some q, r => decide (q ≤ r)

/-- Vehicle profile (`Vehicle` dataclass).  The fields used only by the Davis
recomputation helpers, which no claim touches, are omitted. -/
structure Vehicle where
  mass_t : ℚ := 39.9
  a_max : ℚ := 1.0
  j_max : ℚ := 0.4
  notches : ℤ := 10
  notch_accels : List ℚ := []
  tau_cmd : ℚ := 0.150
  tau_brk : ℚ := 0.250
  mass_kg : ℚ := 39900
  maxSpeed_kmh : ℚ := 140.0
  forward_notches : ℤ := 5
  forward_notch_accels : List ℚ := []
  T_max_kN : ℚ := 0.0
  P_max_kW : ℚ := 0.0
  /-- models `type == "고속"` (high-speed class tag). -/
  highSpeedType : Bool := false
  A0 : ℚ := 1200.0
  B1 : ℚ := 30.0
  C2 : ℚ := 8.0
  deriving DecidableEq, Repr

/-- Track scenario (`Scenario` dataclass). -/
structure Scenario where
  L : ℚ := 500.0
  v0 : ℚ := 25.0
  grade_percent : ℚ := 0.0
  mu : ℚ := 1.0
  dt : ℚ := 0.005
  deriving DecidableEq, Repr

/-- Simulation state (`State` dataclass).  The `issues` reporting dictionary
is not modelled. -/
structure SimState where
  t : ℚ := 0.0
  s : ℚ := 0.0
  v : ℚ := 0.0
  a : ℚ := 0.0
  lever_notch : ℤ := 0
  internal_notch : ℤ := 0
  atc_overspeed : Bool := false
  finished : Bool := false
  stop_error_m : Option ℚ := none
  residual_speed_kmh : Option ℚ := none
  score : Option ℤ := none
  running : Bool := false
  paused : Bool := false
  time_budget_s : ℚ := 0.0
  time_remaining_s : ℚ := 0.0
  timer_enabled : Bool := false
  time_remaining_int : ℤ := 0
  time_overrun_s : ℚ := 0.0
  time_overrun_int : ℤ := 0
  time_overrun_started : Bool := false
  deriving DecidableEq, Repr

/-- Command names that can reach `queue_command` / `_apply_command`.
`applyNotch` appears in `queue_command`'s immediate-apply list but has no
`_apply_command` case; `other` stands for any other unrecognized name, which
is queued as a generic notch-valued command. -/
inductive CmdName where
  | stepNotch
  | applyNotch
  | release
  | emergencyBrake
  | setNotch
  | setInternalNotch
  | atcOverspeed
  | other
  deriving DecidableEq, Repr

/-- A queued command entry `{"t": .., "name": .., "val": ..}`. -/
structure Cmd where
  t : ℚ
  name : CmdName
  val : ℤ
  deriving DecidableEq, Repr

/-- Wheel-slip protection state machine states. -/
inductive WspState where
  | normal
  | release
  | reapply
  deriving DecidableEq, Repr

/-- TASC controller phase (`"build"` / `"relax"`). -/
inductive TascPhase where
  | build
  | relax
  deriving DecidableEq, Repr

/-- Stopping-distance prediction cache (`_tasc_pred_cache`). -/
structure PredCache where
  t : ℚ := -1.0
  v : ℚ := -1.0
  notch : ℤ := -1
  s_cur : PDist := none
  s_up : PDist := none
  s_dn : PDist := none
  deriving DecidableEq, Repr

/-- Countdown-timer policy configuration; all fields are set in `__init__`
and never touched by `reset`. -/
structure TimerCfg where
  timer_use_table : Bool := false
  timer_table : List (ℤ × ℚ) := []
  timer_v_target_kmh : ℚ := 70.0
  timer_buffer_s : ℚ := 60.0
  timer_calib : List (ℚ × ℚ × ℚ) :=
    [(40, 150, 27), (60, 200, 28), (70, 300, 32), (90, 500, 40), (130, 900, 49)]
  timer_idw_power : ℚ := 2.0
  timer_norm_v : ℚ := 100.0
  timer_norm_L : ℚ := 300.0
  timer_blend_threshold : ℚ := 1.5
  timer_min_s : ℚ := 5.0
  timer_max_s : ℚ := 300.0
  timer_min_effective_v_kmh : ℚ := 12.0
  timer_max_effective_v_kmh : ℚ := 110.0
  timer_far_outlier_scale : ℚ := 0.35
  deriving DecidableEq, Repr

/-- The whole mutable simulator (`StoppingSim`). -/
structure Sim where
  veh : Vehicle
  scn : Scenario
  planned_v0 : ℚ
  tasc_takeover_rem_m : ℚ := 250.0
  tasc_takeover_hyst_m : ℚ := 1
  state : SimState
  running : Bool := false
  random_mode : Bool := false
  final_notch_on_finish : ℤ := 0
  cmd_queue : List Cmd := []
  first_brake_start : Option ℚ := none
  first_brake_done : Bool := false
  first_brake_notch : Option ℤ := none
  first_brake_start_t : Option ℚ := none
  seen_zero_notch : Bool := false
  notch_history : List ℤ := []
  time_history : List ℚ := []
  eb_used : Bool := false
  run_over : Bool := false
  prev_a : ℚ := 0.0
  jerk_history : List ℚ := []
  tasc_enabled : Bool := false
  tasc_enabled_initially : Bool := false
  manual_override : Bool := false
  tasc_deadband_m : ℚ := 0.05
  tasc_hold_min_s : ℚ := 0.05
  tasc_last_change_t : ℚ := 0.0
  tasc_phase : TascPhase := TascPhase.build
  tasc_peak_notch : ℤ := 1
  tasc_armed : Bool := false
  tasc_active : Bool := false
  tasc_relax_margin_m : ℚ := 0
  tasc_relax_hold_s : ℚ := 0
  rr_factor : ℚ := 1.0
  pred_cache : PredCache := {}
  tasc_pred_interval : ℚ := 0.1
  tasc_last_pred_t : ℚ := -1.0
  tasc_speed_eps : ℚ := 0.5
  need_b5_last_t : ℚ := -1.0
  need_b5_last : Bool := false
  need_b5_interval : ℚ := 0.05
  brk_accel : ℚ := 0.0
  brk_elec : ℚ := 0.0
  brk_air : ℚ := 0.0
  wsp_state : WspState := WspState.normal
  wsp_timer : ℚ := 0.0
  a_cmd_filt : ℚ := 0.0
  timer_cfg : TimerCfg := {}

/-- Module-level tuning constant `test_notch = 3`. -/
def test_notch : ℤ := 3

/-- Module-level tuning constant `test_margin = 0`. -/
def test_margin : ℚ := 0

/-- Embeds `StoppingSim._tasc_relax_margin_for_notch`. -/
def tascRelaxMarginForNotch (sim : Sim) (notch : ℤ) : ℚ :=
  if 6 ≤ notch then 3.0
  else if 5 ≤ notch then 2.0
  else if 4 ≤ notch then 1.0
  else sim.tasc_relax_margin_m

/-- Embeds `StoppingSim._effective_brake_accel`. -/
def effectiveBrakeAccel (veh : Vehicle) (scn : Scenario) (notch : ℤ) (v : ℚ) : ℚ :=
  if notch ≤ 0 then 0
  else if (veh.notch_accels.length : ℤ) ≤ notch then 0
  else
    let base := veh.notch_accels.getD notch.toNat 0
    let k_srv : ℚ := 0.85
    let k_eb : ℚ := 0.98
    let is_eb := notch = veh.notches - 1
    let k_adh := if is_eb then k_eb else k_srv
    let a_cap := -k_adh * scn.mu * 9.81
    let a_eff := max base a_cap
    if a_eff ≤ a_cap + 0.000001 then
      let scale : ℚ := if 8 < v then 0.90 else 0.85
      a_cap * scale
    else a_eff

/-- Embeds `StoppingSim._grade_accel`. -/
def gradeAccel (scn : Scenario) : ℚ :=
  -9.81 * (scn.grade_percent / 100)

/-- Embeds `StoppingSim._davis_accel`. -/
def davisAccel (veh : Vehicle) (rr_factor : ℚ) (v : ℚ) : ℚ :=
  if v < 0.01 then 0
  else
    let A0 := veh.A0 * rr_factor
    let B1 := veh.B1 * rr_factor
    let C2 := veh.C2
    let F := A0 + B1 * v + C2 * (v * v);
    (-F) / veh.mass_kg

/-- Embeds `StoppingSim._blend_w_regen`. -/
def blendWRegen (v : ℚ) : ℚ :=
  let v_kmh := v * 3.6
  if 20 ≤ v_kmh then 1
  else if v_kmh ≤ 8 then 0
  else (v_kmh - 8) / 12

/-- Result of one electric/air brake-blend update. -/
structure BrakeSplit where
  brk_elec : ℚ
  brk_air : ℚ
  brk_accel : ℚ
  deriving DecidableEq, Repr

/-- Embeds `StoppingSim._update_brake_dyn_split` as a pure function of the current
electric/air states. -/
def updateBrakeDynSplit (brk_elec brk_air : ℚ) (a_total_cmd v : ℚ)
    (is_eb : Bool) (dt : ℚ) : BrakeSplit :=
  let w := blendWRegen v
  let a_cmd_e := a_total_cmd * w
  let a_cmd_a := a_total_cmd * (1 - w)
  let te := if 15 ≤ v * 3.6 then ((0.18 : ℚ), (0.40 : ℚ)) else ((0.30 : ℚ), (0.50 : ℚ))
  let ta0 := if v * 3.6 < 10 then ((0.45 : ℚ), (0.75 : ℚ)) else ((0.30 : ℚ), (0.60 : ℚ))
  let ta := if is_eb then ((0.15 : ℚ), (0.45 : ℚ)) else ta0
  let tau_e := if a_cmd_e < brk_elec then te.1 else te.2
  let tau_a := if a_cmd_a < brk_air then ta.1 else ta.2
  let e := brk_elec + (a_cmd_e - brk_elec) * (dt / max 0.000001 tau_e)
  let a := brk_air + (a_cmd_a - brk_air) * (dt / max 0.000001 tau_a)
  { brk_elec := e, brk_air := a, brk_accel := e + a }

/-- Result of one wheel-slip-protection update. -/
structure WspResult where
  wsp_state : WspState
  wsp_timer : ℚ
  a_out : ℚ
  deriving DecidableEq, Repr

/-- Embeds `StoppingSim._wsp_update` as a pure function. -/
def wspUpdate (scn : Scenario) (wsp_state : WspState) (wsp_timer : ℚ)
    (v a_demand dt : ℚ) : WspResult :=
  let a_cap := -0.85 * scn.mu * 9.81
  let margin : ℚ := 0.05
  match wsp_state with
  | WspState.normal =>
      if a_demand < a_cap - margin ∧ 3 < v * 3.6 then
        { wsp_state := WspState.release, wsp_timer := 0.12,
          a_out := min a_demand (0.5 * a_cap) }
      else
        { wsp_state := WspState.normal, wsp_timer := wsp_timer, a_out := a_demand }
  | WspState.release =>
      let timer := wsp_timer - dt
      if timer ≤ 0 then
        { wsp_state := WspState.reapply, wsp_timer := 0.15,
          a_out := min a_demand (0.3 * a_cap) }
      else
        { wsp_state := WspState.release, wsp_timer := timer,
          a_out := min a_demand (0.3 * a_cap) }
  | WspState.reapply =>
      let timer := wsp_timer - dt
      if timer ≤ 0 then
        { wsp_state := WspState.normal, wsp_timer := timer,
          a_out := min a_demand (0.8 * a_cap) }
      else
        { wsp_state := WspState.reapply, wsp_timer := timer,
          a_out := min a_demand (0.8 * a_cap) }

/-- Embeds `StoppingSim._clamp_notch`. -/
def clampNotch (veh : Vehicle) (n : ℤ) : ℤ :=
  let min_notch := -(veh.forward_notch_accels.length : ℤ)
  let max_notch := (veh.notch_accels.length : ℤ) - 2
  max min_notch (min max_notch n)

/-- Torque ratio table of the high-speed traction model. -/
def torqueTable : List ℚ :=
  [0.40, 0.48, 0.56, 0.64, 0.70, 0.76, 0.82, 0.88, 0.92, 0.95, 0.98, 0.99, 1.00]

/-- Power ratio table of the high-speed traction model. -/
def powerTable : List ℚ :=
  [0.10, 0.16, 0.24, 0.34, 0.45, 0.58, 0.70, 0.80, 0.88, 0.94, 0.98, 0.995, 1.00]

/-- Per-notch speed-limit ratios of the high-speed traction model. -/
def hsLimitRatios : List ℚ :=
  [0.05, 0.18, 0.30, 0.40, 0.50, 0.58, 0.66, 0.74, 0.80, 0.86, 0.92, 0.97, 1.00]

/-- Legacy traction fallback: per-notch plateau ends (km/h). -/
def flatEnds : List ℚ := [5.0, 20.0, 32.0, 33.0, 33.0]

/-- Legacy traction fallback: per-notch exponential-tail starts (km/h). -/
def expStarts : List ℚ := [30.0, 33.0, 54.0, 54.0, 54.0]

/-- Legacy traction fallback: per-notch minimum force factors. -/
def minFactors : List ℚ := [0.0003, 0.04, 0.07, 0.14, 0.27]

/-- Embeds `StoppingSim.compute_power_accel`. -/
def computePowerAccel (veh : Vehicle) (lever_notch : ℤ) (v : ℚ) : ℚ :=
  if 0 ≤ lever_notch then 0
  else if 0 < veh.T_max_kN ∧ 0 < veh.P_max_kW then
    -- physics-based force/power-limited model
    let n_forward0 : ℤ :=
      if veh.forward_notch_accels.length = 0 then veh.forward_notches
      else (veh.forward_notch_accels.length : ℤ)
    let n_forward := max 1 n_forward0
    let idx := max 0 (min (|lever_notch| - 1) (n_forward - 1))
    let ratios :=
      if 200 ≤ veh.maxSpeed_kmh then
        let safe_idx := min idx.toNat (torqueTable.length - 1)
        (torqueTable.getD safe_idx 0, powerTable.getD safe_idx 0)
      else
        (((idx : ℚ) + 1) / (n_forward : ℚ), ((idx : ℚ) + 1) / (n_forward : ℚ))
    let ratio_T := ratios.1
    let ratio_P := ratios.2
    let P_max_W := veh.P_max_kW * 1000
    let T_max_N := veh.T_max_kN * 1000
    let v_safe := max 0.1 v
    let F_torque_limit := T_max_N * ratio_T
    let F_power_limit := P_max_W * ratio_P / v_safe
    let F_physics := min F_torque_limit F_power_limit
    let v_kmh := v * 3.6
    let limit_ratios :=
      if veh.highSpeedType then hsLimitRatios
      else (List.range n_forward.toNat).map (fun i => ((i : ℚ) + 1) / (n_forward : ℚ) * 1.2)
    let safe_limit_idx := min idx.toNat (limit_ratios.length - 1)
    let notch_max_speed := veh.maxSpeed_kmh * limit_ratios.getD safe_limit_idx 0
    let cm := if idx ≤ 1 then ((15.0 : ℚ), (0.05 : ℚ)) else ((40.0 : ℚ), (0.4 : ℚ))
    let cutoff_range := cm.1
    let min_residual := cm.2
    let F2 :=
      if notch_max_speed < v_kmh then F_physics * min_residual
      else if notch_max_speed - cutoff_range < v_kmh then
        let progress := (v_kmh - (notch_max_speed - cutoff_range)) / cutoff_range
        F_physics * (1 - progress * (1 - min_residual))
      else F_physics
    let a_pwr := F2 / veh.mass_kg
    let a_pwr2 :=
      if v_kmh < 5 ∧ 0 ≤ idx then max a_pwr (0.15 * (ratio_T / 0.30)) else a_pwr
    if 0 < veh.a_max then min a_pwr2 veh.a_max else a_pwr2
  else
    -- legacy fallback: per-notch base accel with fade by speed
    let n_notches := (veh.forward_notch_accels.length : ℤ)
    let idx := max 0 (min (-lever_notch - 1) (n_notches - 1))
    let base_accel := veh.forward_notch_accels.getD idx.toNat 0
    let v_kmh := v * 3.6
    let max_v_kmh := max 1 veh.maxSpeed_kmh
    let s_k := flatEnds.getD (min idx.toNat (flatEnds.length - 1)) 0
    let e_k := expStarts.getD (min idx.toNat (expStarts.length - 1)) 0
    let min_factor := minFactors.getD (min idx.toNat (minFactors.length - 1)) 0
    let mid_factor0 := 0.35 + 0.1 * (idx : ℚ)
    let mid_factor := min 1 (max min_factor mid_factor0)
    let factor :=
      if v_kmh ≤ s_k then 1
      else if v_kmh ≤ e_k then
        let t := (v_kmh - s_k) / max 0.000001 (e_k - s_k)
        max (1 - (1 - mid_factor) * t) min_factor
      else
        let t := (v_kmh - e_k) / max 0.000001 (max_v_kmh - e_k)
        max ((mid_factor - min_factor) * exp271828 (-3 * t) + min_factor) min_factor
    base_accel * min 1 factor

/-- Takes the `min` of a possibly-infinite running minimum and a finite value. -/
def pdMin : PDist → ℚ → PDist
  | none, d => some d
  | some m, d => some (min m d)

/-- Embeds `StoppingSim._idw_predict_time`: inverse-distance-weighted timer estimate.
Returns `(estimate, minimum normalized distance)`; `(none, none)` models the
`(nan, inf)` result for an empty calibration table. -/
def idwPredictTime (cfg : TimerCfg) (v_kmh L_m : ℚ) : Option ℚ × PDist :=
  if cfg.timer_calib = [] then (none, none)
  else
    let eps : ℚ := 0.000001
    let acc := cfg.timer_calib.foldl
      (fun (acc : ℚ × ℚ × PDist) (p : ℚ × ℚ × ℚ) =>
        let dv := (v_kmh - p.1) / max eps cfg.timer_norm_v
        let dL := (L_m - p.2.1) / max eps cfg.timer_norm_L
        let d := fpowQ (dv * dv + dL * dL) 0.5
        let w := 1 / fpowQ (d + eps) cfg.timer_idw_power
        (acc.1 + w * p.2.2, acc.2.1 + w, pdMin acc.2.2 d))
      (0, 0, none)
    (some (acc.1 / max eps acc.2.1), acc.2.2)

/-- Embeds `StoppingSim._formula_time`. -/
def formulaTime (cfg : TimerCfg) (v0_kmh L_m : ℚ) : ℚ :=
  let v_target := cfg.timer_v_target_kmh
  let r := min 1 (max 0 (L_m / cfg.timer_norm_L))
  let v0_clip := min cfg.timer_max_effective_v_kmh (max cfg.timer_min_effective_v_kmh v0_kmh)
  let v_eff := (1 - 0.35 * r) * v0_clip + (0.35 * r) * v_target
  let v_ms := max 0.1 (v_eff / 3.6)
  L_m / v_ms + cfg.timer_buffer_s

/-- Embeds `StoppingSim._compute_time_budget_auto`. -/
def computeTimeBudgetAuto (cfg : TimerCfg) (v_kmh L_m : ℚ) : ℚ :=
  let idw := idwPredictTime cfg v_kmh L_m
  let t_formula := formulaTime cfg v_kmh L_m
  let t :=
    match idw.1, idw.2 with
    | some t_idw, some min_d =>
        if cfg.timer_calib = [] then t_formula
        else if min_d < cfg.timer_blend_threshold then t_idw
        else
          let alpha := max 0 (1 - min_d / (cfg.timer_blend_threshold * 2))
          let formula_weight := max (1 - alpha) cfg.timer_far_outlier_scale
          (1 - formula_weight) * t_idw + formula_weight * t_formula
    | _, _ => t_formula
  max cfg.timer_min_s (min cfg.timer_max_s t)

/-- Embeds `StoppingSim._compute_time_budget`. -/
def computeTimeBudget (cfg : TimerCfg) (timer_enabled : Bool) (scn : Scenario) : ℚ :=
  if ¬timer_enabled then 0
  else
    let v0_kmh := scn.v0 * 3.6
    let L_m := scn.L
    if cfg.timer_calib ≠ [] then computeTimeBudgetAuto cfg v0_kmh L_m
    else if cfg.timer_use_table ∧ cfg.timer_table ≠ [] then
      let v0_round := pyround v0_kmh
      match cfg.timer_table with
      | [] => formulaTime cfg v0_kmh L_m
      | e :: rest =>
          (rest.foldl
            (fun (best : ℤ × ℚ) (p : ℤ × ℚ) =>
              if |p.1 - v0_round| < |best.1 - v0_round| then p else best) e).2
    else formulaTime cfg v0_kmh L_m

/-- Rolling state of the stopping-distance prediction loop
(`_estimate_stop_distance` locals). -/
structure EstState where
  v : ℚ
  a : ℚ
  s : ℚ
  brk_elec : ℚ
  brk_air : ℚ
  wsp_state : WspState
  wsp_timer : ℚ
  a_cmd_filt : ℚ
  deriving DecidableEq, Repr

/-- One iteration of the `_estimate_stop_distance` rollout. -/
def estStep (veh : Vehicle) (scn : Scenario) (rr_factor : ℚ) (notch : ℤ)
    (rem_now : ℚ) (es : EstState) : EstState :=
  let dt : ℚ := 0.03
  let pwr_accel := if notch < 0 then computePowerAccel veh notch es.v else 0
  let is_eb := notch = veh.notches - 1
  let a_cmd_total := effectiveBrakeAccel veh scn notch es.v
  let w := blendWRegen es.v
  let a_cmd_e := a_cmd_total * w
  let a_cmd_a := a_cmd_total * (1 - w)
  let te := if 15 ≤ es.v * 3.6 then ((0.18 : ℚ), (0.40 : ℚ)) else ((0.30 : ℚ), (0.50 : ℚ))
  let ta0 := if es.v * 3.6 < 10 then ((0.45 : ℚ), (0.75 : ℚ)) else ((0.30 : ℚ), (0.60 : ℚ))
  let ta := if is_eb then ((0.15 : ℚ), (0.45 : ℚ)) else ta0
  let tau_e := if a_cmd_e < es.brk_elec then te.1 else te.2
  let tau_a := if a_cmd_a < es.brk_air then ta.1 else ta.2
  let brk_elec := es.brk_elec + (a_cmd_e - es.brk_elec) * (dt / max 0.000001 tau_e)
  let brk_air := es.brk_air + (a_cmd_a - es.brk_air) * (dt / max 0.000001 tau_a)
  let a_brake0 := brk_elec + brk_air
  let a_cap := -0.85 * scn.mu * 9.81
  let margin : ℚ := 0.05
  let wsp :=
    match es.wsp_state with
    | WspState.normal =>
        if a_brake0 < a_cap - margin ∧ 3 < es.v * 3.6 then
          (WspState.release, (0.12 : ℚ), min a_brake0 (0.5 * a_cap))
        else (WspState.normal, es.wsp_timer, a_brake0)
    | WspState.release =>
        let timer := es.wsp_timer - dt
        if timer ≤ 0 then (WspState.reapply, (0.15 : ℚ), min a_brake0 (0.3 * a_cap))
        else (WspState.release, timer, min a_brake0 (0.3 * a_cap))
    | WspState.reapply =>
        let timer := es.wsp_timer - dt
        if timer ≤ 0 then (WspState.normal, (0 : ℚ), min a_brake0 (0.8 * a_cap))
        else (WspState.reapply, timer, min a_brake0 (0.8 * a_cap))
  let a_brake := wsp.2.2
  let a_grade := gradeAccel scn
  let a_davis := davisAccel veh rr_factor es.v
  let a_target0 := pwr_accel + a_brake + a_grade + a_davis
  let a_target1 := if notch = 0 then gradeAccel scn + davisAccel veh rr_factor es.v else a_target0
  let rem_pred := max 0 (rem_now - es.s)
  let a_target := if notch = 1 ∨ rem_pred ≤ 0 then min a_target1 0 else a_target1
  let a_cmd_filt := es.a_cmd_filt + (a_target - es.a_cmd_filt) * (dt / max 0.000001 veh.tau_brk)
  let max_da0 := veh.j_max * dt
  let v_kmh := es.v * 3.6
  let max_da := if v_kmh ≤ 5 then max_da0 * (0.25 + 0.75 * (v_kmh / 5)) else max_da0
  let da0 := a_cmd_filt - es.a
  let da := if max_da < da0 then max_da else if da0 < -max_da then -max_da else da0
  let a := es.a + da
  let v := max 0 (es.v + a * dt)
  let s := es.s + v * dt + 0.5 * a * dt * dt
  { v := v, a := a, s := s, brk_elec := brk_elec, brk_air := brk_air,
    wsp_state := wsp.1, wsp_timer := wsp.2.1, a_cmd_filt := a_cmd_filt }

/-- Fuel-bounded rollout loop of `_estimate_stop_distance` (2400 iterations,
early exit when speed reaches 0.01 or distance exceeds the limit). -/
def estGo (veh : Vehicle) (scn : Scenario) (rr_factor : ℚ) (notch : ℤ)
    (rem_now limit : ℚ) : ℕ → EstState → ℚ
  | 0, es => es.s
  | n + 1, es =>
      let es2 := estStep veh scn rr_factor notch rem_now es
      if es2.v ≤ 0.01 then es2.s
      else if limit < es2.s then es2.s
      else estGo veh scn rr_factor notch rem_now limit n es2

/-- Embeds `StoppingSim._estimate_stop_distance`. -/
def estimateStopDistance (sim : Sim) (notch : ℤ) (v0 : ℚ) : ℚ :=
  let v := max 0 v0
  let rem_now := sim.scn.L - sim.state.s
  let limit := rem_now + 8
  let ctrl_delay := max sim.tasc_pred_interval sim.tasc_hold_min_s
  let latency_margin := v * ctrl_delay
  let es0 : EstState :=
    { v := v, a := sim.state.a, s := 0, brk_elec := sim.brk_elec,
      brk_air := sim.brk_air, wsp_state := sim.wsp_state,
      wsp_timer := sim.wsp_timer, a_cmd_filt := sim.a_cmd_filt }
  estGo sim.veh sim.scn sim.rr_factor notch rem_now limit 2400 es0 + latency_margin

/-- Embeds `StoppingSim._stopping_distance`. -/
def stoppingDistance (sim : Sim) (notch : ℤ) (v : ℚ) : PDist :=
  if notch ≤ 0 then none else some (estimateStopDistance sim notch v)

/-- Embeds `StoppingSim._tasc_predict` (cached prediction); returns the three
predicted distances and the simulator with the refreshed cache. -/
def tascPredict (sim : Sim) (cur_notch : ℤ) (v : ℚ) : PDist × PDist × PDist × Sim :=
  let need :=
    (sim.tasc_pred_interval ≤ sim.state.t - sim.tasc_last_pred_t) ∨
    (sim.tasc_speed_eps ≤ |v - sim.pred_cache.v|) ∨
    (cur_notch ≠ sim.pred_cache.notch)
  if ¬need then
    (sim.pred_cache.s_cur, sim.pred_cache.s_up, sim.pred_cache.s_dn, sim)
  else
    let max_normal_notch := sim.veh.notches - 2
    let s_cur := if 0 < cur_notch then stoppingDistance sim cur_notch v else none
    let s_up :=
      if cur_notch + 1 ≤ max_normal_notch then stoppingDistance sim (cur_notch + 1) v
      else some 0
    let s_dn :=
      if 1 ≤ cur_notch - 1 then stoppingDistance sim (cur_notch - 1) v else none
    let cache : PredCache :=
      { t := sim.state.t, v := v, notch := cur_notch,
        s_cur := s_cur, s_up := s_up, s_dn := s_dn }
    (s_cur, s_up, s_dn,
      { sim with pred_cache := cache, tasc_last_pred_t := sim.state.t })

/-- Embeds `StoppingSim._apply_command`. -/
def applyCommand (sim : Sim) (cmd : Cmd) : Sim :=
  let st := sim.state
  let sim1 : Sim :=
    match cmd.name with
    | CmdName.stepNotch =>
        { sim with state :=
            { st with lever_notch := clampNotch sim.veh (st.lever_notch + cmd.val) } }
    | CmdName.release => { sim with state := { st with lever_notch := 0 } }
    | CmdName.emergencyBrake =>
        let sim2 := { sim with state := { st with lever_notch := sim.veh.notches - 1 } }
        if 0 < st.v then { sim2 with eb_used := true } else sim2
    | CmdName.setNotch =>
        { sim with state := { st with lever_notch := clampNotch sim.veh cmd.val } }
    | CmdName.setInternalNotch =>
        { sim with state := { st with internal_notch := clampNotch sim.veh cmd.val } }
    | _ => sim
  -- forward notch applied while stopped: prime the acceleration filter
  let st1 := sim1.state
  if st1.lever_notch < 0 ∧ st1.v = 0 then
    let pwr := computePowerAccel sim1.veh st1.lever_notch 0
    if 0 < pwr then { sim1 with a_cmd_filt := pwr } else sim1
  else sim1

/-- Embeds `StoppingSim.queue_command`. -/
def queueCommand (sim : Sim) (name : CmdName) (val : ℤ) : Sim :=
  match name with
  | CmdName.atcOverspeed =>
      { sim with state := { sim.state with atc_overspeed := val ≠ 0 } }
  | CmdName.emergencyBrake =>
      -- applied immediately, bypassing command latency
      let sim1 := applyCommand sim { t := sim.state.t, name := name, val := val }
      if sim1.state.lever_notch = sim1.veh.notches - 1 then
        let a_cmd_total :=
          effectiveBrakeAccel sim1.veh sim1.scn sim1.state.lever_notch sim1.state.v
        let w := blendWRegen sim1.state.v
        let e := a_cmd_total * w
        let a := a_cmd_total * (1 - w)
        { sim1 with
          brk_elec := e
          brk_air := a
          brk_accel := e + a
          a_cmd_filt := a_cmd_total }
      else sim1
  | _ =>
      let isNotchLike :=
        name = CmdName.stepNotch ∨ name = CmdName.applyNotch ∨
        name = CmdName.setNotch ∨ name = CmdName.release
      if isNotchLike ∧ sim.state.v ≤ 0.05 then
        applyCommand sim { t := sim.state.t, name := name, val := val }
      else
        { sim with cmd_queue :=
            sim.cmd_queue ++ [{ t := sim.state.t + sim.veh.tau_cmd, name := name, val := val }] }

/-- Fuel-bounded form of the command drain loop at the top of
`StoppingSim.step`. -/
def drainFuel : ℕ → Sim → Sim
  | 0, sim => sim
  | n + 1, sim =>
      match sim.cmd_queue with
      | [] => sim
      | c :: rest =>
          if c.t ≤ sim.state.t then
            drainFuel n (applyCommand { sim with cmd_queue := rest } c)
          else sim

/-- Apply every queued command whose scheduled time has been reached. -/
def drainCmds (sim : Sim) : Sim :=
  drainFuel sim.cmd_queue.length sim

/-- Embeds `StoppingSim.reset`. -/
def resetSim (sim : Sim) : Sim :=
  let prev_timer_enabled := sim.state.timer_enabled
  let prev_running := sim.running
  let max_normal_notch := sim.veh.notches - 2
  let prev_lever_notch : ℤ :=
    if sim.random_mode then
      if sim.veh.notches - 1 ≤ sim.final_notch_on_finish then max_normal_notch
      else sim.final_notch_on_finish
    else 0
  let budget := computeTimeBudget sim.timer_cfg prev_timer_enabled sim.scn
  let st : SimState :=
    { t := 0, s := 0, v := 0, a := 0, lever_notch := prev_lever_notch,
      finished := false, timer_enabled := prev_timer_enabled,
      time_budget_s := budget, time_remaining_s := budget,
      time_remaining_int := ⌊budget⌋, time_overrun_s := 0,
      time_overrun_int := 0, time_overrun_started := false }
  { sim with
    planned_v0 := sim.scn.v0,
    state := st,
    running := if ¬sim.random_mode then false else prev_running,
    cmd_queue := [],
    first_brake_start := none,
    first_brake_done := false,
    first_brake_notch := none,
    first_brake_start_t := none,
    seen_zero_notch := false,
    eb_used := false,
    notch_history := [],
    time_history := [],
    prev_a := 0,
    jerk_history := [],
    tasc_last_change_t := 0,
    tasc_phase := if ¬sim.tasc_active then TascPhase.build else sim.tasc_phase,
    tasc_peak_notch := if ¬sim.tasc_active then 1 else sim.tasc_peak_notch,
    tasc_active := false,
    tasc_armed := sim.tasc_enabled,
    pred_cache :=
      { t := -1, v := -1, notch := -1, s_cur := none, s_up := none, s_dn := none },
    tasc_last_pred_t := -1,
    need_b5_last_t := -1,
    need_b5_last := false,
    brk_accel := 0,
    brk_elec := 0,
    brk_air := 0,
    wsp_state := WspState.normal,
    wsp_timer := 0,
    a_cmd_filt := 0,
    rr_factor := 1 }

/-- Notch/time history bookkeeping at the top of `StoppingSim.step`
(history records only ticks with `v > 0.1`). -/
def histPhase (sim : Sim) : Sim :=
  let sim1 :=
    if 0.1 < sim.state.v then
      { sim with notch_history := sim.notch_history ++ [sim.state.lever_notch] }
    else sim
  { sim1 with time_history := sim1.time_history ++ [sim1.state.t] }

/-- The early-return branch of `StoppingSim.step` once `finished` is set. -/
def freezePhase (sim : Sim) : Sim :=
  { sim with state := { sim.state with a := 0, v := max 0 sim.state.v } }

/-- Initial-braking (B1/B2 dwell) bookkeeping block of `StoppingSim.step`. -/
def firstBrakePhase (sim : Sim) : Sim :=
  let st := sim.state
  let seen := if ¬sim.seen_zero_notch ∧ st.lever_notch = 0 then true else sim.seen_zero_notch
  let sim1 := { sim with seen_zero_notch := seen }
  if ¬sim1.first_brake_done ∧ seen ∧ ¬sim1.tasc_active then
    let cur := st.lever_notch
    let hist := sim1.notch_history
    let prev : Option ℤ :=
      if 2 ≤ hist.length then some (hist.getD (hist.length - 2) 0) else none
    match sim1.first_brake_notch with
    | none =>
        if prev = some 0 ∧ (cur = 1 ∨ cur = 2) then
          { sim1 with first_brake_notch := some cur, first_brake_start_t := some st.t }
        else sim1
    | some fbn =>
        if cur = fbn then
          if 0.999 ≤ st.t - (sim1.first_brake_start_t.getD 0) then
            { sim1 with first_brake_done := true }
          else sim1
        else { sim1 with first_brake_notch := none, first_brake_start_t := none }
  else sim1

/-- Countdown-timer block of `StoppingSim.step`. -/
def timerPhase (sim : Sim) : Sim :=
  let st := sim.state
  if st.timer_enabled ∧ ¬st.finished then
    let rem := st.time_remaining_s - sim.scn.dt
    let remInt := pytrunc rem
    let st1 := { st with time_remaining_s := rem, time_remaining_int := remInt }
    let st2 :=
      if rem < 0 ∧ ¬st1.time_overrun_started then
        { st1 with
          time_overrun_s := -rem
          time_overrun_int := |remInt|
          time_overrun_started := true }
      else st1
    { sim with state := st2 }
  else sim

/-- Relax-phase body of the TASC block (`_tasc_phase == "relax"` and no
change happened this tick). -/
def tascRelaxBody (sim : Sim) (cur : ℤ) (s_dn : PDist) (rem_now t : ℚ)
    (dwell_ok : Bool) : Sim :=
  if 1 < cur then
    let target_notch := cur - 1
    if test_notch ≤ cur then
      let margin := tascRelaxMarginForNotch sim cur
      let relax_allowed := PDist.leQ s_dn (rem_now + sim.tasc_deadband_m - margin)
      let time_since_change := t - sim.tasc_last_change_t
      if relax_allowed ∧ dwell_ok ∧ sim.tasc_relax_hold_s ≤ time_since_change then
        { sim with
          state := { sim.state with internal_notch := clampNotch sim.veh target_notch },
          tasc_last_change_t := t }
      else sim
    else
      if PDist.leQ s_dn (rem_now + sim.tasc_deadband_m) ∧ dwell_ok then
        { sim with
          state := { sim.state with internal_notch := clampNotch sim.veh target_notch },
          tasc_last_change_t := t }
      else sim
  else sim

/-- TASC controller block of `StoppingSim.step`. -/
def tascCtrl (sim : Sim) : Sim :=
  if sim.tasc_enabled ∧ ¬sim.state.finished then
    let st := sim.state
    let dwell_ok := decide (sim.tasc_hold_min_s ≤ st.t - sim.tasc_last_change_t)
    let rem_now := sim.scn.L - st.s
    let cur := st.internal_notch
    let max_normal_notch := sim.veh.notches - 2
    let sim1 :=
      if sim.tasc_armed ∧ ¬sim.tasc_active ∧
          rem_now ≤ sim.tasc_takeover_rem_m + sim.tasc_takeover_hyst_m then
        { sim with tasc_active := true, tasc_armed := false, tasc_last_change_t := st.t }
      else sim
    if sim1.tasc_active then
      if ¬sim1.first_brake_done then { sim1 with first_brake_done := true }
      else
        let pr := tascPredict sim1 cur st.v
        let s_cur := pr.1
        let s_dn := pr.2.2.1
        let sim2 := pr.2.2.2
        if sim2.tasc_phase = TascPhase.build then
          if cur < max_normal_notch ∧ PDist.gtQ s_cur (rem_now - sim2.tasc_deadband_m) then
            if dwell_ok then
              let newn := clampNotch sim2.veh (cur + 1)
              { sim2 with
                state := { sim2.state with internal_notch := newn },
                tasc_last_change_t := st.t,
                tasc_peak_notch := max sim2.tasc_peak_notch newn }
            else sim2
          else
            tascRelaxBody { sim2 with tasc_phase := TascPhase.relax } cur s_dn rem_now st.t dwell_ok
        else
          tascRelaxBody sim2 cur s_dn rem_now st.t dwell_ok
    else sim1
  else sim

/-- Per-tick dynamics block of `StoppingSim.step` (effective notch, traction,
brake blending, WSP, grade, resistance, command filter, jerk limiter,
integration). -/
def dynPhase (sim : Sim) : Sim :=
  let st := sim.state
  let dt := sim.scn.dt
  let effective_notch := max st.lever_notch st.internal_notch
  let pwr_accel :=
    if st.atc_overspeed then computePowerAccel sim.veh effective_notch st.v
    else computePowerAccel sim.veh st.lever_notch st.v
  let a_cmd_brake := effectiveBrakeAccel sim.veh sim.scn effective_notch st.v
  let is_eb := effective_notch = sim.veh.notches - 1
  let bs := updateBrakeDynSplit sim.brk_elec sim.brk_air a_cmd_brake st.v is_eb dt
  let wr := wspUpdate sim.scn sim.wsp_state sim.wsp_timer st.v bs.brk_accel dt
  let a_brake := wr.a_out
  let a_grade := gradeAccel sim.scn
  let a_davis := davisAccel sim.veh sim.rr_factor st.v
  let a_target0 := pwr_accel + a_brake + a_grade + a_davis
  let v_kmh := st.v * 3.6
  let a_target := if 1 ≤ effective_notch then min a_target0 0 else a_target0
  let tau_inv := dt / max 0.000001 sim.veh.tau_brk
  let a_cmd_filt := sim.a_cmd_filt + (a_target - sim.a_cmd_filt) * tau_inv
  let max_da0 := sim.veh.j_max * dt
  let max_da :=
    if v_kmh ≤ 5 ∧ 1 ≤ effective_notch then max_da0 * (0.25 + 0.75 * (v_kmh / 5))
    else max_da0
  let da0 := a_cmd_filt - st.a
  let da := if max_da < da0 then max_da else if da0 < -max_da then -max_da else da0
  let a := st.a + da
  let v := max 0 (st.v + a * dt)
  let s := st.s + v * dt + 0.5 * a * dt * dt
  { sim with
    brk_elec := bs.brk_elec, brk_air := bs.brk_air, brk_accel := bs.brk_accel,
    wsp_state := wr.wsp_state, wsp_timer := wr.wsp_timer,
    a_cmd_filt := a_cmd_filt,
    state := { st with a := a, v := v, s := s, t := st.t + dt } }

/-- Embeds `StoppingSim.remove_negative_values`: everything after the last negative
entry, or the whole list when no entry is negative. -/
def removeNegativeValues : List ℤ → List ℤ
  | [] => []
  | x :: xs =>
      if xs.any (fun y => y < 0) then removeNegativeValues xs
      else if x < 0 then xs
      else x :: xs

/-- Tail worker of `remove_adjacent_duplicates`. -/
def radGo (cur : ℤ) : List ℤ → List ℤ
  | [] => []
  | y :: ys => if y ≠ cur then y :: radGo y ys else radGo cur ys

/-- Embeds `StoppingSim.remove_adjacent_duplicates`. -/
def removeAdjacentDuplicates : List ℤ → List ℤ
  | [] => []
  | x :: xs => x :: radGo x xs

/-- Scanning loop of `is_stair_pattern`: `peak_reached` flag semantics. -/
def stairGo (peak : Bool) (prev : ℤ) : List ℤ → Bool
  | [] => true
  | c :: rest =>
      if ¬peak then
        if c < prev then stairGo true c rest else stairGo false c rest
      else
        if prev < c then false else stairGo true c rest

/-- Embeds `StoppingSim.is_stair_pattern`. -/
def isStairPattern (l : List ℤ) : Bool :=
  let n1 := removeAdjacentDuplicates l
  let n2 := removeNegativeValues n1
  if n2.length < 5 then false
  else
    match n2 with
    | [] => false
    | x :: xs =>
        stairGo false x xs && decide ((n2.getLast?).getD 0 = 1 ∨ (n2.getLast?).getD 0 = 2)

/-- Embeds `StoppingSim.compute_jerk_score`: returns `(adjusted average jerk, jerk
score)` over the trailing one-second window. -/
def computeJerkScore (dt : ℚ) (jerk_history : List ℚ) : ℚ × ℚ :=
  let n := pytrunc (1 / dt)
  let recent :=
    if n ≤ 0 then jerk_history.drop (-n).toNat
    else if (jerk_history.length : ℤ) < n then jerk_history
    else jerk_history.drop (jerk_history.length - n.toNat)
  if recent = [] then (0, 0)
  else
    let avg_jerk := recent.foldl (· + ·) 0 / (recent.length : ℚ)
    let high_jerk_count := (recent.filter (fun j => 30 < j)).length
    let penalty_factor := min 1 ((high_jerk_count : ℚ) / 10)
    let adjusted_jerk := avg_jerk * (1 + penalty_factor)
    if adjusted_jerk ≤ 10 then (adjusted_jerk, 0)
    else
      let low_bound : ℚ := 21.6
      let high_bound : ℚ := 24
      if adjusted_jerk ≤ low_bound then (adjusted_jerk, 500)
      else if adjusted_jerk ≤ high_bound then
        (adjusted_jerk, 500 * (high_bound - adjusted_jerk) / (high_bound - low_bound))
      else (adjusted_jerk, 0)

/-- The `last_notch` read at run completion (`step`, finish block): the last
recorded notch only when the history is non-empty and the absolute stop
error is at most 1 m, and notch 0 otherwise. -/
def finishLastNotch (hist : List ℤ) (stop_error : ℚ) : ℤ :=
  if hist ≠ [] ∧ |stop_error| ≤ 1 then (hist.getLast?).getD 0 else 0

/-- Final-notch comfort delta at run completion: bonus for notch 0–2,
penalty otherwise. -/
def comfortDelta (last_notch : ℤ) : ℤ :=
  if last_notch = 0 ∨ last_notch = 1 ∨ last_notch = 2 then 300 else -100

/-- Raw-score normalization at run completion: clamp to `[300, 1200]`,
rescale linearly to `[0, 100]`, round to the nearest integer. -/
def finalScoreOfRaw (raw : ℤ) : ℤ :=
  let minq : ℤ := 300
  let maxq : ℤ := 1200
  let c1 := if raw < minq then minq else raw
  let c := if maxq < c1 then maxq else c1
  let norm : ℚ := ((c : ℚ) - (minq : ℚ)) / ((maxq : ℚ) - (minq : ℚ)) * 100
  pyround (max 0 (min 100 norm))

/-- Raw score accumulated at run completion, before normalization
(`step`, finish block): emergency-brake penalty, initial-braking bonus,
final-notch comfort rule, staircase bonus, stop-error bonus, jerk score,
obstacle penalty. -/
def finishRawScore (sim : Sim) (stop_error : ℚ) (jh : List ℚ) : ℤ :=
  let score1 : ℤ := if sim.eb_used then -500 else 0
  let score2 := if ¬sim.first_brake_done then score1 - 100 else score1 + 300
  let last_notch := finishLastNotch sim.notch_history stop_error
  let score3 := score2 + comfortDelta last_notch
  let score4 :=
    if isStairPattern sim.notch_history then score3 + 300
    else if sim.tasc_enabled ∧ ¬sim.manual_override then score3 + 300
    else score3
  let err_abs := |stop_error|
  let error_score := max 0 (500 - pytrunc (err_abs / 2 * 500))
  let score5 := score4 + error_score
  let score6 := if err_abs < 0.01 then score5 + 500 else score5
  let js := computeJerkScore sim.scn.dt jh
  let score7 := score6 + pytrunc js.2
  if sim.run_over then score7 - 1000 else score7

/-- Completion detection and scoring block of `StoppingSim.step`. -/
def finishPhase (sim : Sim) : Sim :=
  let st := sim.state
  let rem := sim.scn.L - st.s
  if ¬st.finished ∧ (rem ≤ -5 ∨ (rem ≤ 1 ∧ st.v ≤ 0)) then
    let stop_error := sim.scn.L - st.s
    let jerk := |(st.a - sim.prev_a) / sim.scn.dt|
    let jh := sim.jerk_history ++ [jerk]
    let final := finalScoreOfRaw (finishRawScore sim stop_error jh)
    let st1 :=
      { st with
        finished := true
        stop_error_m := some stop_error
        residual_speed_kmh := some (st.v * 3.6)
        score := some final }
    let sim1 :=
      { sim with
        state := st1
        prev_a := st.a
        jerk_history := jh
        final_notch_on_finish := st.lever_notch }
    let sim2 :=
      if sim1.random_mode ∧ sim1.tasc_enabled_initially then
        { sim1 with
          tasc_enabled := true
          tasc_armed := true
          tasc_active := false
          tasc_phase := TascPhase.build
          tasc_peak_notch := 1 }
      else sim1
    if ¬sim2.random_mode then { sim2 with running := false } else sim2
  else sim

/-- Embeds `StoppingSim.step`: one full simulation tick. -/
def stepSim (sim : Sim) : Sim :=
  let sim1 := drainCmds sim
  let sim2 := histPhase sim1
  if sim2.state.finished then freezePhase sim2
  else
    let sim3 := firstBrakePhase sim2
    let sim4 := timerPhase sim3
    let sim5 := tascCtrl sim4
    let sim6 := dynPhase sim5
    finishPhase sim6

/-! ### Concrete configurations used by witnesses and counterexamples -/

/-- A concrete vehicle with the `from_json` defaults of the source, the
braking table reversed and `notches` synchronized to its length exactly as
the server's connection setup does. -/
def demoVeh : Vehicle :=
  { mass_t := 39.9, a_max := 1.0, j_max := 0.8, notches := 9,
    notch_accels := [0.0, -0.20, -0.35, -0.50, -0.65, -0.80, -0.95, -1.10, -1.5],
    tau_cmd := 0.150, tau_brk := 0.250, mass_kg := 39900,
    maxSpeed_kmh := 140.0, forward_notches := 5,
    forward_notch_accels := [0.250, 0.287, 0.378, 0.515, 0.694],
    T_max_kN := 0, P_max_kW := 0, highSpeedType := false,
    A0 := 1200.0, B1 := 30.0, C2 := 8.0 }

/-- A concrete scenario at low adhesion (`mu = 0.12`, a value the server
accepts unclamped from `setInitial`). -/
def demoScn : Scenario :=
  { L := 500, v0 := 25, grade_percent := 0, mu := 3/25, dt := 0.005 }

/-- Mid-braking simulator state used for the stopping-distance prediction
counterexample: remaining distance -4.9 m (the run finishes only at -5 m),
speed 25 m/s, electric brake holding -0.9 m/s². -/
def simC4 : Sim :=
  { veh := demoVeh, scn := demoScn, planned_v0 := 25,
    state := { t := 30, s := 504.9, v := 25, a := -0.95,
               lever_notch := 0, internal_notch := 6 },
    brk_elec := -0.9, brk_air := 0, a_cmd_filt := -0.95 }

/-- Simulator state for the effective-notch counterexample: overspeed flag
unset, driver notch 0 (neutral), controller-internal notch 3. -/
def simC1a : Sim :=
  { veh := demoVeh, scn := demoScn, planned_v0 := 25,
    state := { t := 10, s := 100, v := 10, a := 0,
               lever_notch := 0, internal_notch := 3, atc_overspeed := false } }

/-- Copy of `simC1a` with the controller-internal notch cleared. -/
def simC1b : Sim :=
  { simC1a with state := { simC1a.state with internal_notch := 0 } }

/-- Simulator state for the emergency-brake-immediacy witness: running at
10 m/s with a queued pending command. -/
def simC6 : Sim :=
  { veh := demoVeh, scn := demoScn, planned_v0 := 25,
    state := { t := 5, s := 50, v := 10, a := 0, lever_notch := 2 },
    cmd_queue := [{ t := 5.1, name := CmdName.stepNotch, val := 1 }] }

/-- Simulator state one tick before completion (remaining 0.5 m, at rest),
used as the score-bounds witness. -/
def simC3 : Sim :=
  { veh := demoVeh, scn := demoScn, planned_v0 := 25,
    state := { t := 40, s := 499.5, v := 0, a := 0, lever_notch := 0 } }

/-- Simulator state used by the notch-bound and history witnesses. -/
def simC5 : Sim :=
  { veh := demoVeh, scn := demoScn, planned_v0 := 25,
    state := { t := 7, s := 80, v := 12, a := 0, lever_notch := 1, internal_notch := 0 } }

/-! ### Helper lemmas: per-phase field preservation -/

theorem applyCommand_state_score (sim : Sim) (c : Cmd) :
    (applyCommand sim c).state.score = sim.state.score := by
  obtain ⟨t, name, val⟩ := c
  unfold applyCommand
  cases name <;> dsimp only <;> split_ifs <;> rfl

theorem applyCommand_notch_history (sim : Sim) (c : Cmd) :
    (applyCommand sim c).notch_history = sim.notch_history := by
  obtain ⟨t, name, val⟩ := c
  unfold applyCommand
  cases name <;> dsimp only <;> split_ifs <;> rfl

theorem drainFuel_state_score (n : ℕ) :
    ∀ sim : Sim, (drainFuel n sim).state.score = sim.state.score := by
  induction n with
  | zero => intro sim; rfl
  | succ k ih =>
      intro sim
      unfold drainFuel
      cases h : sim.cmd_queue with
      | nil => rfl
      | cons c rest =>
          dsimp only
          split
          · rw [ih, applyCommand_state_score]
          · rfl

theorem histPhase_state_score (sim : Sim) :
    (histPhase sim).state.score = sim.state.score := by
  unfold histPhase; split <;> rfl

theorem histPhase_state (sim : Sim) : (histPhase sim).state = sim.state := by
  unfold histPhase; split <;> rfl

set_option linter.unnecessarySeqFocus false in
theorem firstBrakePhase_state (sim : Sim) :
    (firstBrakePhase sim).state = sim.state := by
  unfold firstBrakePhase
  dsimp only
  split_ifs <;> try rfl
  all_goals cases h : sim.first_brake_notch <;> dsimp only <;> split_ifs <;> rfl

theorem timerPhase_state_score (sim : Sim) :
    (timerPhase sim).state.score = sim.state.score := by
  unfold timerPhase; dsimp only; split_ifs <;> rfl

theorem timerPhase_state_v (sim : Sim) :
    (timerPhase sim).state.v = sim.state.v := by
  unfold timerPhase; dsimp only; split_ifs <;> rfl

theorem tascPredict_sim_state (sim : Sim) (c : ℤ) (v : ℚ) :
    (tascPredict sim c v).2.2.2.state = sim.state := by
  unfold tascPredict; dsimp only; split_ifs <;> rfl

theorem tascPredict_sim_fields (sim : Sim) (c : ℤ) (v : ℚ) :
    (tascPredict sim c v).2.2.2.veh = sim.veh ∧
    (tascPredict sim c v).2.2.2.tasc_phase = sim.tasc_phase ∧
    (tascPredict sim c v).2.2.2.tasc_deadband_m = sim.tasc_deadband_m ∧
    (tascPredict sim c v).2.2.2.notch_history = sim.notch_history := by
  unfold tascPredict; dsimp only; split_ifs <;> exact ⟨rfl, rfl, rfl, rfl⟩

theorem tascRelaxBody_state_score (sim : Sim) (cur : ℤ) (s_dn : PDist)
    (rem_now t : ℚ) (dw : Bool) :
    (tascRelaxBody sim cur s_dn rem_now t dw).state.score = sim.state.score := by
  unfold tascRelaxBody; dsimp only; split_ifs <;> rfl

theorem tascRelaxBody_state_v (sim : Sim) (cur : ℤ) (s_dn : PDist)
    (rem_now t : ℚ) (dw : Bool) :
    (tascRelaxBody sim cur s_dn rem_now t dw).state.v = sim.state.v := by
  unfold tascRelaxBody; dsimp only; split_ifs <;> rfl

theorem tascRelaxBody_notch_history (sim : Sim) (cur : ℤ) (s_dn : PDist)
    (rem_now t : ℚ) (dw : Bool) :
    (tascRelaxBody sim cur s_dn rem_now t dw).notch_history = sim.notch_history := by
  unfold tascRelaxBody; dsimp only; split_ifs <;> rfl

theorem tascPredict_state_score (sim : Sim) (c : ℤ) (v : ℚ) :
    (tascPredict sim c v).2.2.2.state.score = sim.state.score := by
  rw [tascPredict_sim_state]

theorem tascPredict_state_v (sim : Sim) (c : ℤ) (v : ℚ) :
    (tascPredict sim c v).2.2.2.state.v = sim.state.v := by
  rw [tascPredict_sim_state]

theorem tascPredict_notch_history (sim : Sim) (c : ℤ) (v : ℚ) :
    (tascPredict sim c v).2.2.2.notch_history = sim.notch_history :=
  (tascPredict_sim_fields sim c v).2.2.2

theorem tascCtrl_state_score (sim : Sim) :
    (tascCtrl sim).state.score = sim.state.score := by
  unfold tascCtrl
  dsimp only
  split_ifs <;>
    simp [tascRelaxBody_state_score, tascPredict_state_score]

theorem tascCtrl_notch_history (sim : Sim) :
    (tascCtrl sim).notch_history = sim.notch_history := by
  unfold tascCtrl
  dsimp only
  split_ifs <;>
    simp [tascRelaxBody_notch_history, tascPredict_notch_history]

set_option maxHeartbeats 1600000 in
theorem dynPhase_state_score (sim : Sim) :
    (dynPhase sim).state.score = sim.state.score := rfl

set_option maxHeartbeats 1600000 in
theorem dynPhase_notch_history (sim : Sim) :
    (dynPhase sim).notch_history = sim.notch_history := rfl

theorem freezePhase_state_score (sim : Sim) :
    (freezePhase sim).state.score = sim.state.score := rfl

set_option maxHeartbeats 1600000 in
theorem finishPhase_state_v (sim : Sim) :
    (finishPhase sim).state.v = sim.state.v := by
  unfold finishPhase; dsimp only; split_ifs <;> rfl

set_option maxHeartbeats 1600000 in
theorem finishPhase_notch_history (sim : Sim) :
    (finishPhase sim).notch_history = sim.notch_history := by
  unfold finishPhase; dsimp only; split_ifs <;> rfl

theorem drainCmds_state_score (sim : Sim) :
    (drainCmds sim).state.score = sim.state.score :=
  drainFuel_state_score sim.cmd_queue.length sim

theorem timerPhase_notch_history (sim : Sim) :
    (timerPhase sim).notch_history = sim.notch_history := by
  unfold timerPhase; dsimp only; split_ifs <;> rfl

set_option linter.unnecessarySeqFocus false in
theorem firstBrakePhase_notch_history (sim : Sim) :
    (firstBrakePhase sim).notch_history = sim.notch_history := by
  unfold firstBrakePhase
  dsimp only
  split_ifs <;> try rfl
  all_goals cases h : sim.first_brake_notch <;> dsimp only <;> split_ifs <;> rfl

theorem histPhase_notch_history (sim : Sim) :
    (histPhase sim).notch_history =
      if 0.1 < sim.state.v then sim.notch_history ++ [sim.state.lever_notch]
      else sim.notch_history := by
  unfold histPhase; dsimp only; split_ifs <;> rfl

theorem freezePhase_notch_history (sim : Sim) :
    (freezePhase sim).notch_history = sim.notch_history := rfl

theorem freezePhase_state_v (sim : Sim) :
    (freezePhase sim).state.v = max 0 sim.state.v := rfl

set_option maxHeartbeats 1600000 in
theorem dynPhase_state_v (sim : Sim) :
    (dynPhase sim).state.v =
      max 0 (sim.state.v + (dynPhase sim).state.a * sim.scn.dt) := rfl

/-! ### Helper lemmas: rounding and clamping bounds -/

theorem pyround_bounds (q : ℚ) (h0 : 0 ≤ q) (h1 : q ≤ 100) :
    0 ≤ pyround q ∧ pyround q ≤ 100 := by
  unfold pyround
  have hq0 : (0 : ℤ) ≤ ⌊q⌋ := Int.floor_nonneg.mpr h0
  have hq1 : ⌊q⌋ ≤ 100 := by
    have h100 : ⌊q⌋ ≤ ⌊(100 : ℚ)⌋ := Int.floor_le_floor h1
    simpa using h100
  have hfl : (⌊q⌋ : ℚ) ≤ q := Int.floor_le q
  dsimp only
  split_ifs with hA hB hC
  · exact ⟨hq0, hq1⟩
  · refine ⟨by omega, ?_⟩
    have hlt : (⌊q⌋ : ℚ) < 100 - 1/2 := by
      push_neg at hA
      linarith
    have hlt2 : (⌊q⌋ : ℚ) < ((100 : ℤ) : ℚ) := by push_cast; linarith
    have := Int.cast_lt.mp hlt2
    omega
  · exact ⟨hq0, hq1⟩
  · refine ⟨by omega, ?_⟩
    push_neg at hA hB
    have heq : q - (⌊q⌋ : ℚ) = 1/2 := le_antisymm hB hA
    have hle : (⌊q⌋ : ℚ) ≤ 100 - 1/2 := by linarith
    have hlt2 : (⌊q⌋ : ℚ) < ((100 : ℤ) : ℚ) := by push_cast; linarith
    have := Int.cast_lt.mp hlt2
    omega

theorem finalScoreOfRaw_bounds (raw : ℤ) :
    0 ≤ finalScoreOfRaw raw ∧ finalScoreOfRaw raw ≤ 100 := by
  unfold finalScoreOfRaw
  dsimp only
  apply pyround_bounds
  · exact le_max_left _ _
  · exact max_le (by norm_num) (min_le_left _ _)

theorem finishPhase_score_cases (sim : Sim) :
    (finishPhase sim).state.score = sim.state.score ∨
      ∃ e j, (finishPhase sim).state.score =
        some (finalScoreOfRaw (finishRawScore sim e j)) := by
  unfold finishPhase
  dsimp only
  split_ifs <;> first
    | exact Or.inl rfl
    | exact Or.inr ⟨_, _, rfl⟩

theorem clampNotch_pos_bounds (veh : Vehicle) (n : ℤ)
    (hlen : 3 ≤ veh.notch_accels.length) (hn : 1 ≤ n) :
    1 ≤ clampNotch veh n ∧
      clampNotch veh n ≤ (veh.notch_accels.length : ℤ) - 2 := by
  unfold clampNotch
  dsimp only
  constructor
  · have h1 : (1 : ℤ) ≤ min ((veh.notch_accels.length : ℤ) - 2) n :=
      le_min (by omega) hn
    exact le_trans h1 (le_max_right _ _)
  · apply max_le
    · have h2 : (0 : ℤ) ≤ (veh.forward_notch_accels.length : ℤ) := Int.ofNat_nonneg _
      omega
    · exact min_le_left _ _

theorem clampNotch_range (veh : Vehicle) (n : ℤ)
    (hlen : 2 ≤ veh.notch_accels.length) :
    -(veh.forward_notch_accels.length : ℤ) ≤ clampNotch veh n ∧
      clampNotch veh n ≤ (veh.notch_accels.length : ℤ) - 2 := by
  unfold clampNotch
  dsimp only
  refine ⟨le_max_left _ _, max_le ?_ (min_le_left _ _)⟩
  have h2 : (0 : ℤ) ≤ (veh.forward_notch_accels.length : ℤ) := Int.ofNat_nonneg _
  omega

/-! ### Claim theorems

The `Rat` arithmetic operations are made semireducible so that concrete
evaluations go through `decide`. -/

attribute [local semireducible] Rat.add Rat.mul Rat.inv Rat.sub Rat.ofScientific

set_option maxRecDepth 10000

/-- C7: after every simulation tick the train's velocity is non-negative —
the velocity integration floors the updated velocity at 0 (and the
frozen-after-finish branch does the same), so no tick produces a negative
velocity from any state. -/
theorem c7_velocity_nonneg (sim : Sim) : 0 ≤ (stepSim sim).state.v := by
  unfold stepSim
  dsimp only
  split
  · rw [freezePhase_state_v]
    exact le_max_left _ _
  · rw [finishPhase_state_v, dynPhase_state_v]
    exact le_max_left _ _

/-- C3: whenever a tick sets the final score of a run (score transitions
from unset to set), the stored value is an integer in `[0, 100]`, obtained
by clamping the raw score to `[300, 1200]`, rescaling linearly to
`[0, 100]` and rounding to the nearest integer (`finalScoreOfRaw`). -/
theorem c3_score_bounds (sim : Sim) (sc : ℤ)
    (h0 : sim.state.score = none)
    (h1 : (stepSim sim).state.score = some sc) :
    0 ≤ sc ∧ sc ≤ 100 := by
  unfold stepSim at h1
  dsimp only at h1
  have hs2 : (histPhase (drainCmds sim)).state.score = none := by
    rw [histPhase_state_score, drainCmds_state_score, h0]
  split at h1
  · rw [freezePhase_state_score, hs2] at h1
    exact absurd h1 (by simp)
  · have hs6 :
        (dynPhase (tascCtrl (timerPhase (firstBrakePhase
          (histPhase (drainCmds sim)))))).state.score = none := by
      rw [dynPhase_state_score, tascCtrl_state_score, timerPhase_state_score,
        congrArg SimState.score (firstBrakePhase_state _), hs2]
    rcases finishPhase_score_cases
        (dynPhase (tascCtrl (timerPhase (firstBrakePhase
          (histPhase (drainCmds sim)))))) with hp | ⟨e, j, hp⟩
    · rw [hp, hs6] at h1
      exact absurd h1 (by simp)
    · rw [hp] at h1
      injection h1 with h
      rw [← h]
      exact finalScoreOfRaw_bounds _

/-- Witness for C3 at a concrete one-tick-to-finish state: the tick
finishes the run and stores the integer score 31. -/
theorem c3_score_bounds_witness :
    simC3.state.score = none ∧ (stepSim simC3).state.score = some 31 ∧
      0 ≤ (31 : ℤ) ∧ (31 : ℤ) ≤ 100 :=
  ⟨rfl, by decide, c3_score_bounds simC3 31 rfl (by decide)⟩

/-- C9: the staircase classifier rejects every notch history whose
sequence, after collapsing adjacent duplicates and removing everything up
to (and including) the last traction entry, has fewer than 5 elements. -/
theorem c9_stair_min_length (l : List ℤ)
    (h : (removeNegativeValues (removeAdjacentDuplicates l)).length < 5) :
    isStairPattern l = false := by
  unfold isStairPattern
  dsimp only
  rw [if_pos h]

/-- Witness for C9: the rise-then-fall history `[0, 1, 2, 1]` ending at
notch 1 is rejected because its processed length is 4. -/
theorem c9_stair_min_length_witness :
    (removeNegativeValues (removeAdjacentDuplicates [0, 1, 2, 1])).length < 5 ∧
      isStairPattern [0, 1, 2, 1] = false :=
  ⟨by decide, c9_stair_min_length [0, 1, 2, 1] (by decide)⟩

/-- C10: at run completion the final-notch comfort rule evaluates notch 0
(and hence awards the +300 comfort bonus) whenever the notch history is
empty or the absolute stop error exceeds 1 m; and the notch history only
records ticks whose velocity exceeds 0.1 m/s. -/
theorem c10_comfort_default_and_history (hist : List ℤ) (err : ℚ) (sim : Sim) :
    ((hist = [] ∨ 1 < |err|) → comfortDelta (finishLastNotch hist err) = 300) ∧
    (sim.cmd_queue = [] →
      (stepSim sim).notch_history =
        if 0.1 < sim.state.v then sim.notch_history ++ [sim.state.lever_notch]
        else sim.notch_history) := by
  constructor
  · intro h
    unfold finishLastNotch
    rw [if_neg]
    · decide
    · rintro ⟨hne, hle⟩
      rcases h with h | h
      · exact hne h
      · linarith
  · intro hq
    have hd : drainCmds sim = sim := by
      unfold drainCmds
      rw [hq]
      rfl
    unfold stepSim
    dsimp only
    rw [hd]
    split
    · rw [freezePhase_notch_history, histPhase_notch_history]
    · rw [finishPhase_notch_history, dynPhase_notch_history, tascCtrl_notch_history,
        timerPhase_notch_history, firstBrakePhase_notch_history, histPhase_notch_history]

/-- Witness for C10 at the empty history / zero error and at a concrete
running state with an empty command queue. -/
theorem c10_comfort_default_and_history_witness :
    comfortDelta (finishLastNotch [] 0) = 300 ∧
      (stepSim simC5).notch_history =
        if 0.1 < simC5.state.v then simC5.notch_history ++ [simC5.state.lever_notch]
        else simC5.notch_history :=
  ⟨(c10_comfort_default_and_history [] 0 simC5).1 (Or.inl rfl),
   (c10_comfort_default_and_history [] 0 simC5).2 rfl⟩

/-- C2 counterexample: a trailing window whose (penalty-adjusted) average
jerk is 5 — far below the low threshold 21.6 — receives jerk score 0, not a
near-maximal score: `compute_jerk_score` returns 0 for any adjusted average
of at most 10. -/
theorem c2_jerk_low_counterexample :
    (computeJerkScore (1/200) [5]).1 = 5 ∧
    (computeJerkScore (1/200) [5]).1 < 21.6 ∧
    (computeJerkScore (1/200) [5]).2 = 0 := by
  refine ⟨by decide, by decide, by decide⟩

/-- C2 (amended): the jerk score is 0 when the penalty-adjusted average
jerk is at most 10, the maximal 500 when it lies in `(10, 21.6]`, decreases
linearly on `(21.6, 24]`, and is 0 above 24. -/
theorem c2_jerk_score_piecewise (dt : ℚ) (jh : List ℚ) :
    ((computeJerkScore dt jh).1 ≤ 10 ∧ (computeJerkScore dt jh).2 = 0) ∨
    (10 < (computeJerkScore dt jh).1 ∧ (computeJerkScore dt jh).1 ≤ 21.6 ∧
      (computeJerkScore dt jh).2 = 500) ∨
    (21.6 < (computeJerkScore dt jh).1 ∧ (computeJerkScore dt jh).1 ≤ 24 ∧
      (computeJerkScore dt jh).2 =
        500 * (24 - (computeJerkScore dt jh).1) / (24 - 21.6)) ∨
    (24 < (computeJerkScore dt jh).1 ∧ (computeJerkScore dt jh).2 = 0) := by
  unfold computeJerkScore
  dsimp only
  set recent :=
    (if pytrunc (1 / dt) ≤ 0 then jh.drop (-pytrunc (1 / dt)).toNat
     else if (jh.length : ℤ) < pytrunc (1 / dt) then jh
     else jh.drop (jh.length - (pytrunc (1 / dt)).toNat)) with hrec
  split_ifs with hempty h10 h216 h24
  · exact Or.inl ⟨by norm_num, rfl⟩
  · exact Or.inl ⟨h10, rfl⟩
  · exact Or.inr (Or.inl ⟨lt_of_not_ge h10, h216, rfl⟩)
  · exact Or.inr (Or.inr (Or.inl ⟨lt_of_not_ge h216, h24, rfl⟩))
  · exact Or.inr (Or.inr (Or.inr ⟨lt_of_not_ge h24, rfl⟩))

/-- C4 counterexample: from the concrete mid-braking state `simC4` at low
adhesion (`mu = 0.12`), the predicted stopping distance for notch 7 is
strictly greater than for notch 6, because the adhesion cap's speed
derating makes notch 7's effective deceleration (0.9 × cap ≈ 0.9006 m/s²)
weaker than notch 6's table value (0.95 m/s²). -/
theorem c4_monotonicity_counterexample :
    stoppingDistance simC4 7 25 = some (estimateStopDistance simC4 7 25) ∧
    estimateStopDistance simC4 6 25 < estimateStopDistance simC4 7 25 := by
  exact ⟨rfl, by decide⟩

/-- C4 (amended): the per-tick effective brake deceleration is monotone
across an adjacent pair of non-emergency braking notches whenever the
braking table is sorted there and the notch `n+1` table value is not
capped by the (derated) adhesion ceiling. -/
theorem c4_effective_brake_monotone (veh : Vehicle) (scn : Scenario) (n : ℤ) (v : ℚ)
    (h1 : 1 ≤ n) (h2 : n + 1 ≤ veh.notches - 2)
    (hsync : veh.notches = (veh.notch_accels.length : ℤ))
    (hsorted : veh.notch_accels.getD (n + 1).toNat 0 ≤ veh.notch_accels.getD n.toNat 0)
    (huncapped : -0.85 * scn.mu * 9.81 + 0.000001 < veh.notch_accels.getD (n + 1).toNat 0) :
    effectiveBrakeAccel veh scn (n + 1) v ≤ effectiveBrakeAccel veh scn n v := by
  unfold effectiveBrakeAccel
  dsimp only
  have hn0 : ¬(n ≤ 0) := by omega
  have hn10 : ¬(n + 1 ≤ 0) := by omega
  have hlen_n : ¬((veh.notch_accels.length : ℤ) ≤ n) := by omega
  have hlen_n1 : ¬((veh.notch_accels.length : ℤ) ≤ n + 1) := by omega
  have heb_n : ¬(n = veh.notches - 1) := by omega
  have heb_n1 : ¬(n + 1 = veh.notches - 1) := by omega
  rw [if_neg hn10, if_neg hn0, if_neg hlen_n1, if_neg hlen_n,
    if_neg heb_n1, if_neg heb_n]
  have hpos : (0 : ℚ) < 0.000001 := by norm_num
  have hcap1 : -0.85 * scn.mu * 9.81 < veh.notch_accels.getD (n + 1).toNat 0 := by
    linarith
  have hcap0 : -0.85 * scn.mu * 9.81 < veh.notch_accels.getD n.toNat 0 := by
    linarith
  rw [max_eq_left (le_of_lt hcap1), max_eq_left (le_of_lt hcap0)]
  rw [if_neg (not_le.mpr (by linarith :
        -0.85 * scn.mu * 9.81 + 0.000001 < veh.notch_accels.getD (n + 1).toNat 0)),
    if_neg (not_le.mpr (by linarith :
        -0.85 * scn.mu * 9.81 + 0.000001 < veh.notch_accels.getD n.toNat 0))]
  exact hsorted

/-- Witness for the amended C4 statement at the default vehicle, notches 3
and 4, 10 m/s. -/
theorem c4_effective_brake_monotone_witness :
    (1 : ℤ) ≤ 3 ∧ (3 : ℤ) + 1 ≤ demoVeh.notches - 2 ∧
    effectiveBrakeAccel demoVeh demoScn 4 10 ≤ effectiveBrakeAccel demoVeh demoScn 3 10 :=
  ⟨by decide, by decide,
   c4_effective_brake_monotone demoVeh demoScn 3 10 (by decide) (by decide)
     (by decide) (by decide) (by decide)⟩

/-- C6: issuing the emergency-brake command at positive velocity sets
`eb_used`, queues nothing (bypassing command latency), sets the lever to
the emergency notch, and force-writes the electric/air brake-blend states,
their sum, and the command-acceleration filter to the commanded emergency
deceleration in the same call. -/
theorem c6_eb_immediacy (sim : Sim) (hv : 0 < sim.state.v) :
    (queueCommand sim CmdName.emergencyBrake 0).eb_used = true ∧
    (queueCommand sim CmdName.emergencyBrake 0).cmd_queue = sim.cmd_queue ∧
    (queueCommand sim CmdName.emergencyBrake 0).state.lever_notch = sim.veh.notches - 1 ∧
    (queueCommand sim CmdName.emergencyBrake 0).brk_elec =
      effectiveBrakeAccel sim.veh sim.scn (sim.veh.notches - 1) sim.state.v *
        blendWRegen sim.state.v ∧
    (queueCommand sim CmdName.emergencyBrake 0).brk_air =
      effectiveBrakeAccel sim.veh sim.scn (sim.veh.notches - 1) sim.state.v *
        (1 - blendWRegen sim.state.v) ∧
    (queueCommand sim CmdName.emergencyBrake 0).brk_accel =
      effectiveBrakeAccel sim.veh sim.scn (sim.veh.notches - 1) sim.state.v ∧
    (queueCommand sim CmdName.emergencyBrake 0).a_cmd_filt =
      effectiveBrakeAccel sim.veh sim.scn (sim.veh.notches - 1) sim.state.v := by
  have hA : applyCommand sim { t := sim.state.t, name := CmdName.emergencyBrake, val := 0 } =
      { sim with
        state := { sim.state with lever_notch := sim.veh.notches - 1 }
        eb_used := true } := by
    unfold applyCommand
    dsimp only
    rw [if_pos hv]
    dsimp only
    split_ifs with p1 p2
    · exact absurd p1.2 (ne_of_gt hv)
    · exact absurd p1.2 (ne_of_gt hv)
    · rfl
  unfold queueCommand
  dsimp only
  rw [hA]
  dsimp only
  rw [if_pos rfl]
  dsimp only
  refine ⟨rfl, rfl, rfl, rfl, rfl, ?_, rfl⟩
  ring

/-- Witness for C6 at a concrete running state with a pending queued
command. -/
theorem c6_eb_immediacy_witness :
    (0 : ℚ) < simC6.state.v ∧
    (queueCommand simC6 CmdName.emergencyBrake 0).eb_used = true ∧
    (queueCommand simC6 CmdName.emergencyBrake 0).cmd_queue = simC6.cmd_queue :=
  ⟨by decide, (c6_eb_immediacy simC6 (by decide)).1,
   (c6_eb_immediacy simC6 (by decide)).2.1⟩


/-- C8: `reset` is idempotent at the level of the simulation state: a second
reset reproduces the exact same `State` (elapsed time 0, position 0,
velocity 0, acceleration 0), the timer-enabled flag is carried across, and
the `running` flag agrees across both resets. -/
theorem c8_reset_idempotent (sim : Sim) :
    (resetSim (resetSim sim)).state = (resetSim sim).state ∧
    (resetSim sim).state.t = 0 ∧ (resetSim sim).state.s = 0 ∧
    (resetSim sim).state.v = 0 ∧ (resetSim sim).state.a = 0 ∧
    (resetSim sim).state.timer_enabled = sim.state.timer_enabled ∧
    (resetSim (resetSim sim)).running = (resetSim sim).running := by
  refine ⟨?_, rfl, rfl, rfl, rfl, rfl, ?_⟩
  · rfl
  · cases hr : sim.random_mode
    · simp [resetSim, hr]
    · simp [resetSim, hr]

/-- C1 counterexample: with the overspeed flag unset, a controller-internal
notch of 3 against a driver notch of 0 still drives the tick's braking
dynamics — the electric brake states after one tick differ between internal
notch 3 and internal notch 0, so the driver notch alone does not determine
the braking term. -/
theorem c1_braking_term_counterexample :
    simC1a.state.atc_overspeed = false ∧
    simC1a.state.lever_notch = 0 ∧ simC1b.state.lever_notch = 0 ∧
    simC1b.state.internal_notch = 0 ∧
    (dynPhase simC1a).brk_elec ≠ (dynPhase simC1b).brk_elec :=
  ⟨rfl, rfl, rfl, rfl, by decide⟩

set_option maxHeartbeats 4000000 in
/-- C1 (amended): in every tick — whatever the overspeed flag — the
dynamics depend on the controller-internal notch only through
`max(driver notch, internal notch)`: replacing the internal notch by any
value with the same maximum leaves the whole tick outcome unchanged except
for the recorded internal notch itself.  (The braking term always uses the
maximum; the overspeed flag only selects whether the traction term uses the
maximum or the driver notch alone.) -/
theorem c1_notch_dependence (sim : Sim) (i : ℤ)
    (h : max sim.state.lever_notch i = max sim.state.lever_notch sim.state.internal_notch) :
    dynPhase { sim with state := { sim.state with internal_notch := i } } =
      { dynPhase sim with state := { (dynPhase sim).state with internal_notch := i } } := by
  unfold dynPhase
  dsimp only
  rw [h]

/-- Witness for the amended C1 statement at a concrete state. -/
theorem c1_notch_dependence_witness :
    max simC1a.state.lever_notch 3 =
      max simC1a.state.lever_notch simC1a.state.internal_notch ∧
    dynPhase { simC1a with state := { simC1a.state with internal_notch := 3 } } =
      { dynPhase simC1a with
        state := { (dynPhase simC1a).state with internal_notch := 3 } } :=
  ⟨by decide, c1_notch_dependence simC1a 3 (by decide)⟩

/-- Projection of the cached-prediction helper: the returned simulator
keeps its vehicle. -/
theorem tascPredict_veh (sim : Sim) (c : ℤ) (v : ℚ) :
    (tascPredict sim c v).2.2.2.veh = sim.veh :=
  (tascPredict_sim_fields sim c v).1

/-- Projection of the cached-prediction helper: the returned simulator
keeps the controller-internal notch. -/
theorem tascPredict_state_internal (sim : Sim) (c : ℤ) (v : ℚ) :
    (tascPredict sim c v).2.2.2.state.internal_notch = sim.state.internal_notch := by
  rw [tascPredict_sim_state]

/-- Clamped-write bound transported along a vehicle equality. -/
theorem clampNotch_write_bounds (veh veh0 : Vehicle) (n : ℤ)
    (hv : veh = veh0) (hlen : 3 ≤ veh0.notch_accels.length) (hn : 1 ≤ n) :
    1 ≤ clampNotch veh n ∧
      clampNotch veh n ≤ (veh0.notch_accels.length : ℤ) - 2 := by
  subst hv
  exact clampNotch_pos_bounds veh n hlen hn

/-- The relax-phase body either leaves the internal notch unchanged or
writes a value in `[1, notches − 2]`. -/
theorem tascRelaxBody_internal (sm : Sim) (cur : ℤ) (s_dn : PDist) (rem t : ℚ)
    (dw : Bool) (veh0 : Vehicle) (i0 : ℤ)
    (hveh : sm.veh = veh0) (hst : sm.state.internal_notch = i0)
    (hlen : 3 ≤ veh0.notch_accels.length) :
    (tascRelaxBody sm cur s_dn rem t dw).state.internal_notch = i0 ∨
      (1 ≤ (tascRelaxBody sm cur s_dn rem t dw).state.internal_notch ∧
       (tascRelaxBody sm cur s_dn rem t dw).state.internal_notch ≤
         (veh0.notch_accels.length : ℤ) - 2) := by
  subst hveh
  subst hst
  unfold tascRelaxBody
  dsimp only
  split_ifs with h1 h2 h3 h4 <;>
    first
      | exact Or.inl rfl
      | exact Or.inr (clampNotch_pos_bounds sm.veh _ hlen (by omega))

section TascCtrlBounds

attribute [local irreducible] estGo estimateStopDistance stoppingDistance

set_option maxHeartbeats 2000000 in
/-- C5: when the internal notch is non-negative (as in every run, where
the controller starts from 0 and only ever writes values at least 1), the
TASC controller block either leaves the internal notch unchanged or writes
a value in `[1, notches − 2]` — never the emergency notch; every driver
notch command (`stepNotch`, `setNotch`, `release`) leaves the lever inside
`[−len(forward traction table), notches − 2]`, except the emergency-brake
command, which sets `notches − 1`. -/
theorem c5_notch_bounds (sim : Sim) (cmd : Cmd)
    (hlen : 3 ≤ sim.veh.notch_accels.length)
    (hsync : sim.veh.notches = (sim.veh.notch_accels.length : ℤ)) :
    (0 ≤ sim.state.internal_notch →
      (tascCtrl sim).state.internal_notch = sim.state.internal_notch ∨
        (1 ≤ (tascCtrl sim).state.internal_notch ∧
         (tascCtrl sim).state.internal_notch ≤ sim.veh.notches - 2)) ∧
    ((cmd.name = CmdName.stepNotch ∨ cmd.name = CmdName.setNotch ∨
        cmd.name = CmdName.release) →
      -(sim.veh.forward_notch_accels.length : ℤ) ≤ (applyCommand sim cmd).state.lever_notch ∧
        (applyCommand sim cmd).state.lever_notch ≤ sim.veh.notches - 2) ∧
    (cmd.name = CmdName.emergencyBrake →
      (applyCommand sim cmd).state.lever_notch = sim.veh.notches - 1) := by
  refine ⟨?_, ?_, ?_⟩
  · intro h0
    rw [hsync]
    unfold tascCtrl
    dsimp only
    split_ifs <;>
      first
        | exact Or.inl rfl
        | exact Or.inl (tascPredict_state_internal _ _ _)
        | exact Or.inr (clampNotch_write_bounds _ _ _
            (by simp [tascPredict_veh]) hlen (by omega))
        | exact tascRelaxBody_internal _ _ _ _ _ _ _ _
            (by simp [tascPredict_veh]) (by simp [tascPredict_state_internal]) hlen
  · obtain ⟨tq, name, val⟩ := cmd
    rintro (h | h | h) <;> subst h <;> rw [hsync] <;>
      (unfold applyCommand; dsimp only; split_ifs) <;> (try dsimp only) <;>
      first
        | exact clampNotch_range _ _ (by omega)
        | (constructor
           · have hf : (0 : ℤ) ≤ (sim.veh.forward_notch_accels.length : ℤ) :=
               Int.ofNat_nonneg _
             omega
           · omega)
  · obtain ⟨tq, name, val⟩ := cmd
    intro h
    subst h
    unfold applyCommand
    dsimp only
    split_ifs <;> rfl

end TascCtrlBounds

/-- Witness for C5 at a concrete state and concrete commands. -/
theorem c5_notch_bounds_witness :
    3 ≤ simC5.veh.notch_accels.length ∧
    simC5.veh.notches = (simC5.veh.notch_accels.length : ℤ) ∧
    ((tascCtrl simC5).state.internal_notch = simC5.state.internal_notch ∨
      (1 ≤ (tascCtrl simC5).state.internal_notch ∧
       (tascCtrl simC5).state.internal_notch ≤ simC5.veh.notches - 2)) ∧
    (-(simC5.veh.forward_notch_accels.length : ℤ) ≤
        (applyCommand simC5 { t := 0, name := CmdName.stepNotch, val := 1 }).state.lever_notch ∧
      (applyCommand simC5 { t := 0, name := CmdName.stepNotch, val := 1 }).state.lever_notch ≤
        simC5.veh.notches - 2) ∧
    (applyCommand simC5 { t := 0, name := CmdName.emergencyBrake, val := 0 }).state.lever_notch =
      simC5.veh.notches - 1 :=
  ⟨by decide, by decide,
   (c5_notch_bounds simC5 { t := 0, name := CmdName.stepNotch, val := 1 }
     (by decide) (by decide)).1 (by decide),
   (c5_notch_bounds simC5 { t := 0, name := CmdName.stepNotch, val := 1 }
     (by decide) (by decide)).2.1 (Or.inl rfl),
   (c5_notch_bounds simC5 { t := 0, name := CmdName.emergencyBrake, val := 0 }
     (by decide) (by decide)).2.2 rfl⟩

end TascSim
